import Mathlib

/-!
Shallow embedding of the RAG self-check frontend
(src/frontend/src/App.tsx, components/Sidebar.tsx, components/MetricsPanel.tsx
ReasoningTrace, types/index.ts) together with the backend consistency
evaluator modelled from the specification (the backend itself is not part of
the sources). JavaScript numbers are modelled as rationals, `Math.round` as
`⌊x + 1/2⌋`, and string truthiness (`!s`) as emptiness.
-/

namespace RagSelfCheck

/- Data model, from src/frontend/src/types/index.ts. -/

inductive RAGStrategy
  | P1 | P2 | P3 | P4 | hybrid
  deriving DecidableEq, Repr

inductive ResultTab
  | answer | context | reasoning | graph
  deriving DecidableEq, Repr

structure CodeSnippet where
  id : String
  content : String
  filePath : String
  language : String
  startLine : ℤ
  endLine : ℤ
  deriving DecidableEq, Repr

structure ReasoningStep where
  similarityScore : ℚ
  description : String
  isHallucinating : Bool
  deriving DecidableEq, Repr

inductive GraphNodeType
  | function | classNode | file | module
  deriving DecidableEq, Repr

structure GraphNode where
  id : String
  label : String
  nodeType : GraphNodeType
  connections : List String
  deriving DecidableEq, Repr

structure QueryResult where
  strategy : RAGStrategy
  answer : String
  context : List CodeSnippet
  reasoning : List ReasoningStep
  graph : Option (List GraphNode)
  deriving DecidableEq, Repr

/- App component state, from src/frontend/src/App.tsx lines 12-22. -/

structure AppState where
  strategy : String
  topK : ℤ
  isHealthy : Option Bool
  selectedDatabase : Option String
  query : String
  currentResult : Option QueryResult
  isLoading : Bool
  isUploading : Bool
  isSelfChecking : Bool
  activeTab : ResultTab
  deriving DecidableEq, Repr

/-- Initial state of the App component (the useState initialisers). -/
def initState : AppState :=
  { strategy := "function"
    topK := 3
    isHealthy := none
    selectedDatabase := none
    query := ""
    currentResult := none
    isLoading := false
    isUploading := false
    isSelfChecking := false
    activeTab := ResultTab.answer }

/-- JS string truthiness of a nullable string: null and "" are falsy. -/
def truthyStr : Option String → Bool
  | none => false
  | some s => !(s == "")

/-- JS String.prototype.trim: drop leading and trailing whitespace. -/
def jsTrim (s : String) : String :=
  ⟨((s.data.dropWhile Char.isWhitespace).reverse.dropWhile Char.isWhitespace).reverse⟩

/- Requests and responses exchanged with the backend. -/

/-- Body of the POST /selfcheck request built in handleSelfCheck
(App.tsx lines 128-133); it has exactly these four fields. -/
structure SelfCheckRequest where
  query : String
  response : String
  collection : String
  k : ℤ
  deriving DecidableEq, Repr

/-- Fields of the POST /selfcheck JSON response read by handleSelfCheck. -/
structure SelfCheckResponse where
  similarity_score : ℚ
  is_hallucinating : Bool
  deriving DecidableEq, Repr

/-- Body of the POST /query request built in handleRunQuery
(App.tsx lines 80-85). -/
structure QueryRequest where
  query : String
  strategy : String
  k : ℤ
  collection : Option String
  deriving DecidableEq, Repr

/-- One element of retrieved_chunks in the POST /query response. -/
structure QueryChunk where
  content : String
  source : String
  start_line : Option ℤ
  end_line : Option ℤ
  deriving DecidableEq, Repr

/-- Fields of the POST /query JSON response read by handleRunQuery. -/
structure QueryResponse where
  strategy_used : RAGStrategy
  answer : String
  retrieved_chunks : List QueryChunk
  deriving DecidableEq, Repr

/-- Outcome of one fetch: an ok response with parsed JSON, a non-ok
HTTP response, or a thrown transport error. -/
inductive FetchOutcome (α : Type)
  | ok (data : α)
  | httpError
  | transportError
  deriving DecidableEq, Repr

/- The two rationale templates, from App.tsx lines 150-152. -/

def divergentRationale : String :=
  "The sampled response differs significantly from the original answer, suggesting potential hallucination."

def consistentRationale : String :=
  "The sampled response is consistent with the original answer, indicating a reliable response."

/-- Rationale attached to a verdict, chosen by the is_hallucinating boolean
(the ternary in App.tsx lines 150-152). -/
def selfCheckDescription (isHallucinating : Bool) : String :=
  if isHallucinating then divergentRationale else consistentRationale

/-- Verdict object stored into the result's reasoning list on a successful
self-check (App.tsx lines 148-154). -/
def selfCheckVerdict (data : SelfCheckResponse) : ReasoningStep :=
  { similarityScore := data.similarity_score
    description := selfCheckDescription data.is_hallucinating
    isHallucinating := data.is_hallucinating }

/-- handleSelfCheck (App.tsx lines 119-164) as a function from the pre-call
state and the fetch outcome to the post-call state and the list of
POST /selfcheck requests issued during the invocation. The early return
`if (!currentResult || !selectedDatabase) return;` uses JS truthiness, so a
null result, a null collection or an empty-string collection all skip the
fetch. On a non-ok response or a thrown error the handler only logs and
clears isSelfChecking. -/
def handleSelfCheck (s : AppState) (o : FetchOutcome SelfCheckResponse) :
    AppState × List SelfCheckRequest :=
  match s.currentResult, s.selectedDatabase with
  | some result, some db =>
    if db = "" then (s, [])
    else
      let req : SelfCheckRequest :=
        { query := s.query
          response := result.answer
          collection := db
          k := s.topK }
      match o with
      | .ok data =>
        ({ s with
            currentResult := some { result with reasoning := [selfCheckVerdict data] }
            activeTab := ResultTab.reasoning
            isSelfChecking := false },
          [req])
      | .httpError => ({ s with isSelfChecking := false }, [req])
      | .transportError => ({ s with isSelfChecking := false }, [req])
  | _, _ => (s, [])

/-- Mapping of one retrieved chunk to a CodeSnippet
(App.tsx lines 100-107); `chunk.start_line || 0` reads as a default of 0. -/
def chunkToSnippet (idx : ℕ) (chunk : QueryChunk) : CodeSnippet :=
  { id := "chunk-" ++ toString idx
    content := chunk.content
    filePath := chunk.source
    language := "python"
    startLine := chunk.start_line.getD 0
    endLine := chunk.end_line.getD 0 }

/-- handleRunQuery (App.tsx lines 70-117) as a function from the pre-call
state and the fetch outcome to the post-call state and the list of
POST /query requests issued. The guard `if (!query.trim()) return;` skips
everything when the query is empty or whitespace-only. -/
def handleRunQuery (s : AppState) (o : FetchOutcome QueryResponse) :
    AppState × List QueryRequest :=
  if jsTrim s.query = "" then (s, [])
  else
    let req : QueryRequest :=
      { query := s.query
        strategy := s.strategy
        k := s.topK
        collection := s.selectedDatabase }
    match o with
    | .ok data =>
      let result : QueryResult :=
        { strategy := data.strategy_used
          answer := data.answer
          context := data.retrieved_chunks.enum.map fun p => chunkToSnippet p.1 p.2
          reasoning := []
          graph := none }
      ({ s with currentResult := some result, isLoading := false
                activeTab := ResultTab.answer }, [req])
    | .httpError => ({ s with isLoading := false, activeTab := ResultTab.answer }, [req])
    | .transportError => ({ s with isLoading := false, activeTab := ResultTab.answer }, [req])

/-- canSelfCheck (App.tsx line 190): the Self Check button is enabled only
when a result exists, a collection is selected (JS truthiness: non-null and
non-empty), and neither a query nor a self-check is in flight. -/
def canSelfCheck (s : AppState) : Bool :=
  s.currentResult.isSome && truthyStr s.selectedDatabase &&
    !s.isLoading && !s.isSelfChecking

/-- State right after handleSelfCheck passes its guard and runs
setIsSelfChecking(true): while the request is in flight, isSelfChecking
holds. -/
def startSelfCheck (s : AppState) : AppState :=
  { s with isSelfChecking := true }

/-- A click on the Self Check button (App.tsx lines 223-233): the button is
disabled unless canSelfCheck, so a click invokes handleSelfCheck only in
enabled states and is a no-op otherwise. -/
def selfCheckClick (s : AppState) (o : FetchOutcome SelfCheckResponse) :
    AppState × List SelfCheckRequest :=
  if canSelfCheck s then handleSelfCheck s o else (s, [])

/- ReasoningTrace rendering, from components/MetricsPanel.tsx
(ReasoningTrace, lines 147-219). -/

/-- JS Math.round on a rational: round half toward positive infinity. -/
def mathRound (x : ℚ) : ℤ := ⌊x + 1 / 2⌋

/-- `Math.round(result.similarityScore * 100)` (line 161). -/
def similarityPercent (score : ℚ) : ℤ := mathRound (score * 100)

/-- Abstract render output of the ReasoningTrace component: the empty-state
placeholder, or the analysis panel with the displayed percent, the
hallucination status (border colour, icon and labels), the colour of the
similarity score text and bar (green iff percent > 50), and the rationale
paragraph. -/
inductive TraceRender
  | placeholder
  | panel (percent : ℤ) (isHallucinating : Bool)
      (statusLabel statusSub : String) (scoreGreen : Bool) (description : String)
  deriving DecidableEq, Repr

/-- ReasoningTrace component as a pure function of its steps prop: an empty
list renders the placeholder; otherwise steps[0] is rendered with
percent = Math.round(score * 100) and score colour green iff percent > 50. -/
def ReasoningTrace (steps : List ReasoningStep) : TraceRender :=
  match steps with
  | [] => TraceRender.placeholder
  | result :: _ =>
    let p := similarityPercent result.similarityScore
    TraceRender.panel p result.isHallucinating
      (if result.isHallucinating then "Potential Hallucination" else "Response Verified")
      (if result.isHallucinating then "Low similarity detected" else "Consistent response")
      (decide (p > 50))
      result.description

/- topK state, from App.tsx line 13 (initial 3), lines 31-36 (config load)
and Sidebar.tsx lines 107-114 (range input min=1 max=10). -/

/-- An event that can change the topK state: a slider edit (the range input
supplies parseInt of its value, which the element keeps within min=1 and
max=10), or a /config response carrying retrieval_k (applied only when
truthy: `if (data.retrieval_k) setTopK(data.retrieval_k)`). -/
inductive TopKEvent
  | sliderChange (v : ℤ)
  | configLoad (v : ℤ)
  deriving DecidableEq, Repr

/-- Effect of one event on topK; a config value of 0 is falsy and ignored. -/
def applyTopKEvent (topK : ℤ) : TopKEvent → ℤ
  | .sliderChange v => v
  | .configLoad v => if v = 0 then topK else v

/-- topK after a sequence of events, starting from the initial value 3. -/
def runTopK (events : List TopKEvent) : ℤ :=
  events.foldl applyTopKEvent 3

/-- Guarantee the range input element gives about a slider event: its value
stays within min=1 and max=10. A config load carries no such guarantee. -/
def sliderBounded : TopKEvent → Bool
  | .sliderChange v => decide (1 ≤ v) && decide (v ≤ 10)
  | .configLoad _ => true

/-- Additional assumption that any applied config value is at least 1; the
code itself only filters the value 0 (falsiness). -/
def configPositive : TopKEvent → Bool
  | .sliderChange _ => true
  | .configLoad v => decide (1 ≤ v)

/- Backend consistency evaluator, modelled from the spec (the backend
implementation is not part of the given sources). -/

/-- Modelled from the spec: the error taxonomy of section 7 (the backend
error types are not in the sources). -/
inductive SelfCheckError
  | InvalidInputError
  | CollectionNotFoundError
  | EmptyContextError
  | EmbeddingUnavailableError
  | GenerationUnavailableError
  | TimeoutError
  deriving DecidableEq, Repr

/-- Modelled from the spec: the (collection, k) context scope of section 3. -/
structure ContextScope where
  collection : String
  k : ℤ
  deriving DecidableEq, Repr

/-- Modelled from the spec: the process-wide classification Threshold with
its observed default 0.5 (the backend constant is not in the sources). -/
def Threshold : ℚ := 1 / 2

/-- Modelled from the spec: the Verdict record of section 3. -/
structure Verdict where
  similarity_score : ℚ
  is_hallucinating : Bool
  rationale : String
  deriving DecidableEq, Repr

/-- Modelled from the spec: classification step (c) of evaluate,
`is_hallucinating = score <= Threshold` (boundary inclusive). -/
def classify (score : ℚ) : Bool := decide (score ≤ Threshold)

/-- Modelled from the spec: the Consistency Evaluator `evaluate` of section
4.3 (not in the sources). Collaborators are passed as oracles; the second
component counts how many collaborator invocations were made. Inputs are
validated first; then the sample generator and the similarity scorer are
each invoked once, errors propagating unmodified with no retry. -/
def evaluate
    (generate_sample : String → ContextScope → Except SelfCheckError String)
    (score : String → String → Except SelfCheckError ℚ)
    (original_answer query : String) (scope : ContextScope) :
    Except SelfCheckError Verdict × ℕ :=
  if jsTrim original_answer = "" ∨ jsTrim query = "" then
    (Except.error SelfCheckError.InvalidInputError, 0)
  else
    match generate_sample query scope with
    | .error e => (Except.error e, 1)
    | .ok sampled =>
      match score original_answer sampled with
      | .error e => (Except.error e, 2)
      | .ok sc =>
        (Except.ok
          { similarity_score := sc
            is_hallucinating := classify sc
            rationale := selfCheckDescription (classify sc) }, 2)

/- Helper lemmas describing the three ways a handleSelfCheck invocation can
go: guard skip, success, failure. -/

theorem handleSelfCheck_noop (s : AppState) (o : FetchOutcome SelfCheckResponse)
    (h : s.currentResult = none ∨ s.selectedDatabase = none ∨ s.selectedDatabase = some "") :
    handleSelfCheck s o = (s, []) := by
  unfold handleSelfCheck
  rcases hcr : s.currentResult with _ | r
  · rfl
  · rcases hdb : s.selectedDatabase with _ | db
    · rfl
    · rcases h with h | h | h
      · rw [hcr] at h; exact absurd h (by simp)
      · rw [hdb] at h; exact absurd h (by simp)
      · rw [hdb] at h
        obtain rfl : db = "" := Option.some.inj h
        simp

theorem handleSelfCheck_ok (s : AppState) (data : SelfCheckResponse)
    (r : QueryResult) (db : String)
    (hr : s.currentResult = some r) (hdb : s.selectedDatabase = some db)
    (hne : ¬ db = "") :
    handleSelfCheck s (FetchOutcome.ok data) =
      ({ s with
          currentResult := some { r with reasoning := [selfCheckVerdict data] }
          activeTab := ResultTab.reasoning
          isSelfChecking := false },
        [{ query := s.query, response := r.answer, collection := db, k := s.topK }]) := by
  unfold handleSelfCheck
  rw [hr, hdb]
  simp [hne]

theorem handleSelfCheck_fail (s : AppState) (o : FetchOutcome SelfCheckResponse)
    (ho : o = FetchOutcome.httpError ∨ o = FetchOutcome.transportError) :
    (handleSelfCheck s o).1 = s ∨
      (handleSelfCheck s o).1 = { s with isSelfChecking := false } := by
  unfold handleSelfCheck
  rcases hcr : s.currentResult with _ | r
  · exact Or.inl rfl
  · rcases hdb : s.selectedDatabase with _ | db
    · exact Or.inl rfl
    · by_cases hne : db = ""
      · simp [hne]
      · rcases ho with rfl | rfl <;> simp [hne]

theorem handleSelfCheck_requests (s : AppState) (o : FetchOutcome SelfCheckResponse)
    (r : QueryResult) (db : String)
    (hr : s.currentResult = some r) (hdb : s.selectedDatabase = some db)
    (hne : ¬ db = "") :
    (handleSelfCheck s o).2 =
      [{ query := s.query, response := r.answer, collection := db, k := s.topK }] := by
  unfold handleSelfCheck
  rw [hr, hdb]
  cases o <;> simp [hne]

/- Concrete states used by the witnesses. -/

def sampleResult : QueryResult :=
  { strategy := RAGStrategy.P1
    answer := "The function parses the config file."
    context := []
    reasoning := []
    graph := none }

def sampleState : AppState :=
  { initState with
      query := "what does load_config do"
      selectedDatabase := some "db1"
      currentResult := some sampleResult }

def sampleResponse : SelfCheckResponse :=
  { similarity_score := 82 / 100, is_hallucinating := false }

/-- C2: on every successful self-check, the rationale attached to the verdict
is chosen from exactly the two canonical templates, determined solely by the
is_hallucinating boolean: the divergent template iff it is true, the
consistent template iff it is false, and the two templates are distinct. -/
theorem c2_rationale_two_templates (s : AppState) (data : SelfCheckResponse)
    (r : QueryResult) (db : String)
    (hr : s.currentResult = some r) (hdb : s.selectedDatabase = some db)
    (hne : ¬ db = "") :
    ∃ r', (handleSelfCheck s (FetchOutcome.ok data)).1.currentResult = some r' ∧
      ∃ v, r'.reasoning = [v] ∧
        v.description = selfCheckDescription data.is_hallucinating ∧
        (data.is_hallucinating = true → v.description = divergentRationale) ∧
        (data.is_hallucinating = false → v.description = consistentRationale) ∧
        divergentRationale ≠ consistentRationale := by
  rw [handleSelfCheck_ok s data r db hr hdb hne]
  refine ⟨_, rfl, selfCheckVerdict data, rfl, rfl, ?_, ?_, by decide⟩
  · intro h; simp [selfCheckVerdict, selfCheckDescription, h]
  · intro h; simp [selfCheckVerdict, selfCheckDescription, h]

/-- C2 witness: concrete successful self-check with score 0.82 and
is_hallucinating = false yields the consistent template. -/
theorem c2_rationale_two_templates_witness :
    ∃ r', (handleSelfCheck sampleState (FetchOutcome.ok sampleResponse)).1.currentResult
        = some r' ∧
      ∃ v, r'.reasoning = [v] ∧
        v.description = selfCheckDescription sampleResponse.is_hallucinating ∧
        (sampleResponse.is_hallucinating = true → v.description = divergentRationale) ∧
        (sampleResponse.is_hallucinating = false → v.description = consistentRationale) ∧
        divergentRationale ≠ consistentRationale :=
  c2_rationale_two_templates sampleState sampleResponse sampleResult "db1" rfl rfl
    (by decide)

/-- C4: a failed self-check (non-ok response or transport error) leaves the
state's current result — and hence the last displayed verdict — unchanged;
no new verdict replaces it. -/
theorem c4_failure_preserves_result (s : AppState) (o : FetchOutcome SelfCheckResponse)
    (ho : o = FetchOutcome.httpError ∨ o = FetchOutcome.transportError) :
    (handleSelfCheck s o).1.currentResult = s.currentResult := by
  rcases handleSelfCheck_fail s o ho with h | h <;> rw [h]

/-- C4 witness: a concrete failing self-check leaves the current result of
the sample state unchanged. -/
theorem c4_failure_preserves_result_witness :
    (handleSelfCheck sampleState FetchOutcome.httpError).1.currentResult
      = sampleState.currentResult :=
  c4_failure_preserves_result sampleState FetchOutcome.httpError (Or.inl rfl)

/-- C5: one self-check invocation issues at most one request to the
/selfcheck endpoint, and exactly one whenever the guard passes, whatever the
outcome — a failure propagates without any automatic retry. -/
theorem c5_no_retry (s : AppState) (o : FetchOutcome SelfCheckResponse) :
    (handleSelfCheck s o).2.length ≤ 1 ∧
      (∀ r db, s.currentResult = some r → s.selectedDatabase = some db →
        ¬ db = "" → (handleSelfCheck s o).2.length = 1) := by
  constructor
  · rcases hcr : s.currentResult with _ | r
    · rw [handleSelfCheck_noop s o (Or.inl hcr)]; simp
    · rcases hdb : s.selectedDatabase with _ | db
      · rw [handleSelfCheck_noop s o (Or.inr (Or.inl hdb))]; simp
      · by_cases hne : db = ""
        · subst hne
          rw [handleSelfCheck_noop s o (Or.inr (Or.inr hdb))]; simp
        · rw [handleSelfCheck_requests s o r db hcr hdb hne]; simp
  · intro r db hr hdb hne
    rw [handleSelfCheck_requests s o r db hr hdb hne]
    rfl

/-- C5 witness: a concrete failing invocation from the sample state issues
exactly one request. -/
theorem c5_no_retry_witness :
    (handleSelfCheck sampleState FetchOutcome.transportError).2.length ≤ 1 ∧
      (∀ r db, sampleState.currentResult = some r →
        sampleState.selectedDatabase = some db → ¬ db = "" →
        (handleSelfCheck sampleState FetchOutcome.transportError).2.length = 1) :=
  c5_no_retry sampleState FetchOutcome.transportError

/-- C6: the request a self-check invocation issues is exactly the record
{query, response, collection, k} where response is the current result's
answer and collection, k are the selected database and retrieval depth —
nothing else is sent. -/
theorem c6_request_shape (s : AppState) (o : FetchOutcome SelfCheckResponse)
    (r : QueryResult) (db : String)
    (hr : s.currentResult = some r) (hdb : s.selectedDatabase = some db)
    (hne : ¬ db = "") :
    (handleSelfCheck s o).2 =
      [{ query := s.query, response := r.answer, collection := db, k := s.topK }] :=
  handleSelfCheck_requests s o r db hr hdb hne

/-- C6 witness: the concrete request issued from the sample state. -/
theorem c6_request_shape_witness :
    (handleSelfCheck sampleState (FetchOutcome.ok sampleResponse)).2 =
      [{ query := sampleState.query, response := sampleResult.answer,
         collection := "db1", k := sampleState.topK }] :=
  c6_request_shape sampleState (FetchOutcome.ok sampleResponse) sampleResult "db1"
    rfl rfl (by decide)

/-- C9: a successful self-check changes only the reasoning field of the
current result: strategy, answer, context and graph are preserved, and the
reasoning field becomes the one-element list holding the new verdict. -/
theorem c9_frame_update (s : AppState) (data : SelfCheckResponse)
    (r : QueryResult) (db : String)
    (hr : s.currentResult = some r) (hdb : s.selectedDatabase = some db)
    (hne : ¬ db = "") :
    ∃ r', (handleSelfCheck s (FetchOutcome.ok data)).1.currentResult = some r' ∧
      r'.strategy = r.strategy ∧ r'.answer = r.answer ∧
      r'.context = r.context ∧ r'.graph = r.graph ∧
      r'.reasoning = [selfCheckVerdict data] ∧
      r'.reasoning.length = 1 := by
  rw [handleSelfCheck_ok s data r db hr hdb hne]
  exact ⟨_, rfl, rfl, rfl, rfl, rfl, rfl, rfl⟩

/-- C9 witness: the concrete frame property at the sample state. -/
theorem c9_frame_update_witness :
    ∃ r', (handleSelfCheck sampleState (FetchOutcome.ok sampleResponse)).1.currentResult
        = some r' ∧
      r'.strategy = sampleResult.strategy ∧ r'.answer = sampleResult.answer ∧
      r'.context = sampleResult.context ∧ r'.graph = sampleResult.graph ∧
      r'.reasoning = [selfCheckVerdict sampleResponse] ∧
      r'.reasoning.length = 1 :=
  c9_frame_update sampleState sampleResponse sampleResult "db1" rfl rfl (by decide)

/-- C10: the self-check is a guarded no-op — with no current result or no
selected collection it does nothing and issues no request; the button is
disabled (canSelfCheck false) whenever a query or a self-check is in
flight, a click in a disabled state is a no-op, and the in-flight state of
a running self-check disables the button, so two self-checks never
overlap. -/
theorem c10_guarded_noop :
    (∀ (s : AppState) (o : FetchOutcome SelfCheckResponse),
      s.currentResult = none ∨ s.selectedDatabase = none ∨
        s.selectedDatabase = some "" →
      handleSelfCheck s o = (s, [])) ∧
    (∀ s : AppState, s.isLoading = true ∨ s.isSelfChecking = true →
      canSelfCheck s = false) ∧
    (∀ (s : AppState) (o : FetchOutcome SelfCheckResponse),
      canSelfCheck s = false → selfCheckClick s o = (s, [])) ∧
    (∀ s : AppState, canSelfCheck (startSelfCheck s) = false) := by
  refine ⟨handleSelfCheck_noop, ?_, ?_, ?_⟩
  · intro s h
    rcases h with h | h <;> simp [canSelfCheck, h]
  · intro s o h
    simp [selfCheckClick, h]
  · intro s
    simp [canSelfCheck, startSelfCheck]

/-- C10 witness: concrete instances — the initial state (no result, no
collection) is a no-op, a loading state disables the button, a click in the
initial state does nothing, and starting a self-check from the sample state
disables the button. -/
theorem c10_guarded_noop_witness :
    handleSelfCheck initState FetchOutcome.httpError = (initState, []) ∧
      canSelfCheck { sampleState with isLoading := true } = false ∧
      selfCheckClick initState FetchOutcome.httpError = (initState, []) ∧
      canSelfCheck (startSelfCheck sampleState) = false :=
  ⟨c10_guarded_noop.1 initState FetchOutcome.httpError (Or.inl rfl),
   c10_guarded_noop.2.1 { sampleState with isLoading := true } (Or.inl rfl),
   c10_guarded_noop.2.2.1 initState FetchOutcome.httpError (by decide),
   c10_guarded_noop.2.2.2 sampleState⟩

/-- C8: the verdict formatter (ReasoningTrace) is a pure, total,
deterministic projection with no failure mode: an empty verdict list renders
the placeholder (and nothing else does), and any nonempty list renders the
panel showing round(100 * similarityScore) percent, the status chosen by the
flag, the score colour green iff the percent exceeds 50, and the verdict's
rationale. -/
theorem c8_formatter_total :
    (ReasoningTrace [] = TraceRender.placeholder) ∧
    (∀ steps : List ReasoningStep,
      ReasoningTrace steps = TraceRender.placeholder ↔ steps = []) ∧
    (∀ (step : ReasoningStep) (rest : List ReasoningStep),
      ReasoningTrace (step :: rest) =
        TraceRender.panel (round (100 * step.similarityScore)) step.isHallucinating
          (if step.isHallucinating then "Potential Hallucination"
            else "Response Verified")
          (if step.isHallucinating then "Low similarity detected"
            else "Consistent response")
          (decide (round (100 * step.similarityScore) > 50))
          step.description) := by
  have key : ∀ q : ℚ, similarityPercent q = round (100 * q) := by
    intro q
    rw [similarityPercent, mathRound, round_eq, mul_comm q 100]
  refine ⟨rfl, ?_, ?_⟩
  · intro steps
    cases steps with
    | nil => simp [ReasoningTrace]
    | cons s rest => simp [ReasoningTrace]
  · intro step rest
    simp [ReasoningTrace, key]

/-- C1 counterexample: the verdict with score 0.504 satisfies the invariant
with is_hallucinating = false (0.504 > Threshold), yet the rounded percent
is 50, which is <= 50, so the UI renders the similarity score red while the
flag says not hallucinating — the red/green rendering does not agree with
the flag. -/
theorem c1_render_agreement_counterexample :
    classify (63 / 125 : ℚ) = false ∧
    Threshold < (63 / 125 : ℚ) ∧
    similarityPercent (63 / 125 : ℚ) = 50 ∧
    ReasoningTrace [{ similarityScore := 63 / 125
                      description := consistentRationale
                      isHallucinating := classify (63 / 125) }] =
      TraceRender.panel 50 false "Response Verified" "Consistent response" false
        consistentRationale := by
  have hcl : classify (63 / 125 : ℚ) = false := by
    unfold classify Threshold
    rw [decide_eq_false_iff_not]
    norm_num
  have hpc : similarityPercent (63 / 125 : ℚ) = 50 := by
    rw [similarityPercent, mathRound, Int.floor_eq_iff]
    norm_num
  refine ⟨hcl, by norm_num [Threshold], hpc, ?_⟩
  simp [ReasoningTrace, hcl, hpc]

/-- C1 (amended): is_hallucinating is true iff the score is at most the
Threshold, the boundary score classifying as hallucinating; and the UI's
red/green rendering of the score (red iff the rounded percent is <= 50)
agrees with the flag for every score outside the open interval
(0.5, 0.505) — inside that interval the percent rounds to exactly 50 and
the score is rendered red although the flag is false. -/
theorem c1_threshold_classification (score : ℚ)
    (h : score ≤ 1 / 2 ∨ 101 / 200 ≤ score) :
    (classify score = true ↔ score ≤ Threshold) ∧
    classify Threshold = true ∧
    ((similarityPercent score ≤ 50) ↔ classify score = true) := by
  refine ⟨by simp [classify], by simp [classify], ?_⟩
  have hp : similarityPercent score ≤ 50 ↔ score * 100 + 1 / 2 < 51 := by
    rw [similarityPercent, mathRound,
      show (50 : ℤ) = 51 - 1 by norm_num, Int.le_sub_one_iff, Int.floor_lt]
    norm_num
  have hcl : classify score = true ↔ score ≤ 1 / 2 := by
    simp [classify, Threshold]
  rw [hp, hcl]
  rcases h with h | h
  · exact ⟨fun _ => h, fun _ => by linarith⟩
  · exact ⟨fun hlt => by linarith, fun hle => by linarith⟩

/-- C1 witness: the amended classification and rendering agreement at the
boundary score 0.5. -/
theorem c1_threshold_classification_witness :
    (classify (1 / 2 : ℚ) = true ↔ (1 / 2 : ℚ) ≤ Threshold) ∧
    classify Threshold = true ∧
    ((similarityPercent (1 / 2 : ℚ) ≤ 50) ↔ classify (1 / 2 : ℚ) = true) :=
  c1_threshold_classification (1 / 2) (Or.inl (by norm_num))

def emptyQueryState : AppState :=
  { initState with
      query := ""
      selectedDatabase := some "db1"
      currentResult := some sampleResult }

/-- C3 counterexample: in a state whose query is the empty string but which
has a current result and a selected collection, handleSelfCheck does issue
the network request to the self-check backend — the empty query is not
rejected client-side before the request. -/
theorem c3_empty_input_counterexample :
    jsTrim emptyQueryState.query = "" ∧
    (handleSelfCheck emptyQueryState FetchOutcome.httpError).2 =
      [{ query := "", response := sampleResult.answer, collection := "db1",
         k := 3 }] := by
  exact ⟨rfl, rfl⟩

/-- C3 (amended): the query operation (handleRunQuery) issues no request at
all when the query is empty or whitespace-only, and the backend evaluate
(modelled from the spec) fails with InvalidInputError before invoking any
collaborator — zero collaborator calls — when original_answer or query is
empty or whitespace-only; the frontend self-check handler itself guards
only on the presence of a current result and a selected collection, not on
emptiness of the query or answer. -/
theorem c3_empty_input_validation :
    (∀ (s : AppState) (o : FetchOutcome QueryResponse),
      jsTrim s.query = "" → handleRunQuery s o = (s, [])) ∧
    (∀ (generate_sample : String → ContextScope → Except SelfCheckError String)
        (score : String → String → Except SelfCheckError ℚ)
        (original_answer query : String) (scope : ContextScope),
      jsTrim original_answer = "" ∨ jsTrim query = "" →
      evaluate generate_sample score original_answer query scope =
        (Except.error SelfCheckError.InvalidInputError, 0)) := by
  constructor
  · intro s o h
    simp [handleRunQuery, h]
  · intro gen sc oa q scope h
    unfold evaluate
    rw [if_pos h]

/-- C3 witness: a whitespace-only query issues no /query request, and the
modelled evaluate rejects an empty original answer with InvalidInputError
and zero collaborator invocations. -/
theorem c3_empty_input_validation_witness :
    handleRunQuery { initState with query := "   " } FetchOutcome.httpError =
      ({ initState with query := "   " }, []) ∧
    evaluate (fun _ _ => Except.ok "sample") (fun _ _ => Except.ok 1) "" "q"
        { collection := "db1", k := 3 } =
      (Except.error SelfCheckError.InvalidInputError, 0) :=
  ⟨c3_empty_input_validation.1 { initState with query := "   " }
      FetchOutcome.httpError (by decide),
   c3_empty_input_validation.2 (fun _ _ => Except.ok "sample")
      (fun _ _ => Except.ok 1) "" "q" { collection := "db1", k := 3 }
      (Or.inl (by decide))⟩

def negativeTopKState : AppState :=
  { initState with
      query := "q"
      selectedDatabase := some "db1"
      currentResult := some sampleResult
      topK := runTopK [TopKEvent.configLoad (-2)] }

/-- C7 counterexample: a /config response carrying retrieval_k = -2 passes
the truthiness filter (only the value 0 is falsy) and sets topK to -2, and
a self-check from that state puts k = -2 < 1 into the request body. -/
theorem c7_topk_counterexample :
    runTopK [TopKEvent.configLoad (-2)] = -2 ∧
    (handleSelfCheck negativeTopKState FetchOutcome.httpError).2 =
      [{ query := "q", response := sampleResult.answer, collection := "db1",
         k := -2 }] ∧
    ¬ (1 : ℤ) ≤ -2 := by
  exact ⟨rfl, rfl, by decide⟩

theorem runTopK_aux (events : List TopKEvent) (k : ℤ) (hk : 1 ≤ k)
    (hs : ∀ e ∈ events, sliderBounded e = true)
    (hc : ∀ e ∈ events, configPositive e = true) :
    1 ≤ events.foldl applyTopKEvent k := by
  induction events generalizing k with
  | nil => exact hk
  | cons e rest ih =>
    refine ih (applyTopKEvent k e) ?_
      (fun x hx => hs x (List.mem_cons_of_mem _ hx))
      (fun x hx => hc x (List.mem_cons_of_mem _ hx))
    cases e with
    | sliderChange v =>
      have hb := hs _ (List.mem_cons_self _ rest)
      simp [sliderBounded] at hb
      simpa [applyTopKEvent] using hb.1
    | configLoad v =>
      have hb := hc _ (List.mem_cons_self _ rest)
      simp [configPositive] at hb
      by_cases hv : v = 0
      · simpa [applyTopKEvent, hv] using hk
      · simpa [applyTopKEvent, hv] using hb

/-- C7 (amended): topK starts at 3; and provided every slider edit stays in
the range element's bounds [1, 10] and every applied config value is at
least 1 (the code filters only the falsy value 0), every reachable topK is
at least 1; the k field of every request a self-check issues equals the
state's topK. -/
theorem c7_topk_invariant :
    initState.topK = 3 ∧
    (∀ events : List TopKEvent,
      (∀ e ∈ events, sliderBounded e = true) →
      (∀ e ∈ events, configPositive e = true) →
      1 ≤ runTopK events) ∧
    (∀ (s : AppState) (o : FetchOutcome SelfCheckResponse),
      ∀ req ∈ (handleSelfCheck s o).2, req.k = s.topK) := by
  refine ⟨rfl, ?_, ?_⟩
  · intro events hs hc
    exact runTopK_aux events 3 (by norm_num) hs hc
  · intro s o req hreq
    rcases hcr : s.currentResult with _ | r
    · rw [handleSelfCheck_noop s o (Or.inl hcr)] at hreq
      simp at hreq
    · rcases hdb : s.selectedDatabase with _ | db
      · rw [handleSelfCheck_noop s o (Or.inr (Or.inl hdb))] at hreq
        simp at hreq
      · by_cases hne : db = ""
        · subst hne
          rw [handleSelfCheck_noop s o (Or.inr (Or.inr hdb))] at hreq
          simp at hreq
        · rw [handleSelfCheck_requests s o r db hcr hdb hne] at hreq
          simp at hreq
          rw [hreq]

/-- C7 witness: concrete events — a slider edit to 5 then a config load of
4 — keep topK at least 1, and the request issued from the sample state
carries its topK. -/
theorem c7_topk_invariant_witness :
    initState.topK = 3 ∧
    1 ≤ runTopK [TopKEvent.sliderChange 5, TopKEvent.configLoad 4] ∧
    ∀ req ∈ (handleSelfCheck sampleState FetchOutcome.httpError).2,
      req.k = sampleState.topK :=
  ⟨c7_topk_invariant.1,
   c7_topk_invariant.2.1 [TopKEvent.sliderChange 5, TopKEvent.configLoad 4]
     (by decide) (by decide),
   c7_topk_invariant.2.2 sampleState FetchOutcome.httpError⟩

end RagSelfCheck
